import Mathlib

/-!
Verification of the service / validation / error-handling core of the
`nextjs-blog-post` repository against its natural-language specification.

The TypeScript sources are embedded shallowly:

* `src/lib/utils/validation.ts`  → `isValidEmail`, `isValidUsername`,
  `isRequired`, `hasMinLength`, `validateUserInput`, `validatePostInput`
* `src/lib/utils/error.ts`       → `ApiErrorData`, the `mk*Error`
  constructors, `Thrown`, `handleApiError`
* `src/lib/auth.ts`              → `createToken`, `verifyToken`
* `src/lib/services/userService.ts` → `UserService.create` and friends
* `src/lib/services/authService.ts` → `AuthService.login`
* `src/lib/services/postService.ts` → `PostService.getAllPosts`,
  `PostService.createPost`, `PostService.deletePost`
* the HTTP route handlers (`src/app/api/posts/route.ts` current revision and
  the login route) → `postsRouteGET`, `postsRoutePOST`, `loginRoutePOST`

The relational store is modelled as explicit lists of rows; each service
operation is a pure function from a store (plus its inputs) to a new store
and a result.  A thrown JavaScript value is modelled by the inductive
`Thrown`; `throw` becomes returning such a value, and a `catch` block
becomes a `match` on it, exactly following the source's control flow.
-/

namespace Blog

/-! ## Data model (`prisma` schema, `src/lib/models`) -/

/-- A row of the `Post` table.  `deletedAt` is a nullable timestamp, modelled
as `Option Nat` (seconds). -/
structure PostRec where
  id : Nat
  title : String
  body : String
  userId : Nat
  deleted : Bool
  deletedAt : Option Nat
deriving Repr, DecidableEq

/-- A row of the `User` table (public projection: id, name, username, email). -/
structure UserRec where
  id : Nat
  name : String
  username : String
  email : String
deriving Repr, DecidableEq

/-- The relational store: the two tables the application uses. -/
structure Store where
  users : List UserRec
  posts : List PostRec
deriving Repr, DecidableEq

/-! ## JavaScript string primitives

The embedding works on the character lists underlying Lean strings, because
the corresponding core `String` functions are defined by well-founded
recursion and do not evaluate inside the kernel. -/

/-- Strip leading and trailing whitespace from a char list (JS `.trim()`;
ASCII whitespace in this model). -/
def trimChars (cs : List Char) : List Char :=
  ((cs.dropWhile Char.isWhitespace).reverse.dropWhile Char.isWhitespace).reverse

/-- JS `s.trim()`. -/
def jsTrim (s : String) : String :=
  ⟨trimChars s.toList⟩

/-- JS `s.toLowerCase()` (ASCII range, which covers every string the claims
touch). -/
def jsToLower (s : String) : String :=
  ⟨s.toList.map Char.toLower⟩

/-- JS `s.includes(pat)`. -/
def strIncludes (s pat : String) : Bool :=
  let cs := s.toList
  let ps := pat.toList
  (List.range (cs.length + 1)).any (fun i => (cs.drop i).take ps.length == ps)

/-! ## Validation utilities (`src/lib/utils/validation.ts`) -/

/-- `isRequired(value)` from validation.ts: `Boolean(value?.trim())`.
Also models the services' inline `!input.x?.trim()` truthiness tests
(negated). -/
def isRequired (value : Option String) : Bool :=
  match value with
  | none => false
  | some s => !(jsTrim s).toList.isEmpty

/-- `hasMinLength(value, minLength)`: `value.trim().length >= minLength`. -/
def hasMinLength (value : String) (minLength : Nat) : Bool :=
  minLength ≤ (jsTrim value).toList.length

/-- A character admitted by the regex class `[^\s@]`. -/
def isEmailSegChar (c : Char) : Bool :=
  !c.isWhitespace && c != '@'

/-- The char list has a dot at some interior position (neither first nor
last).  Used to split the domain part of an email into `[^\s@]+\.[^\s@]+`. -/
def hasInteriorDot (cs : List Char) : Bool :=
  match cs with
  | [] => false
  | _ :: t => t.dropLast.contains '.'

/-- The regex `/^[^\s@]+@[^\s@]+\.[^\s@]+$/` applied to a raw string (no
trimming) — used directly by `userService.ts` and `authService.ts`.
A string matches iff it is `A@R` with `A` a nonempty `'@'`-free
whitespace-free block and `R` a nonempty such block containing a dot at an
interior position (so that `R = B.C` with `B`, `C` nonempty). -/
def emailRegexMatch (s : String) : Bool :=
  let cs := s.toList
  let lo := cs.takeWhile (fun c => c != '@')
  let rest := cs.dropWhile (fun c => c != '@')
  match rest with
  | '@' :: dom =>
      !lo.isEmpty && lo.all isEmailSegChar &&
      !dom.contains '@' && dom.all isEmailSegChar &&
      hasInteriorDot dom
  | _ => false

/-- `isValidEmail(email)` from validation.ts: the email regex applied to the
trimmed string. -/
def isValidEmail (email : String) : Bool :=
  emailRegexMatch (jsTrim email)

/-- The regex `/^[a-zA-Z0-9_-]+$/` applied to a raw string. -/
def usernameRegexMatch (s : String) : Bool :=
  let cs := s.toList
  !cs.isEmpty && cs.all (fun c => c.isAlphanum || c == '_' || c == '-')

/-- `isValidUsername(username)` from validation.ts (tests the trimmed
string). -/
def isValidUsername (username : String) : Bool :=
  usernameRegexMatch (jsTrim username)

/-- The `{isValid, errors}` record returned by the composite validators. -/
structure ValidationResult where
  isValid : Bool
  errors : List String
deriving Repr, DecidableEq

/-- Argument record of `validateUserInput` (all fields optional). -/
structure UserInputArgs where
  name : Option String
  username : Option String
  email : Option String
deriving Repr, DecidableEq

/-- Argument record of `validatePostInput` (all fields optional). -/
structure PostInputArgs where
  title : Option String
  body : Option String
deriving Repr, DecidableEq

/-- `validateUserInput` from validation.ts: checks only the fields present;
for each present field a required-check runs first, then the length /
format checks. -/
def validateUserInput (input : UserInputArgs) : ValidationResult :=
  let e0 : List String := []
  let e1 :=
    match input.name with
    | none => e0
    | some nm =>
        if !isRequired (some nm) then e0 ++ ["Name is required"]
        else if !hasMinLength nm 2 then e0 ++ ["Name must be at least 2 characters long"]
        else e0
  let e2 :=
    match input.username with
    | none => e1
    | some un =>
        if !isRequired (some un) then e1 ++ ["Username is required"]
        else if !hasMinLength un 3 then e1 ++ ["Username must be at least 3 characters long"]
        else if !isValidUsername un then
          e1 ++ ["Username can only contain letters, numbers, underscores, and dashes"]
        else e1
  let e3 :=
    match input.email with
    | none => e2
    | some em =>
        if !isRequired (some em) then e2 ++ ["Email is required"]
        else if !isValidEmail em then e2 ++ ["Invalid email format"]
        else e2
  { isValid := e3.isEmpty, errors := e3 }

/-- `validatePostInput` from validation.ts. -/
def validatePostInput (input : PostInputArgs) : ValidationResult :=
  let e0 : List String := []
  let e1 :=
    match input.title with
    | none => e0
    | some t =>
        if !isRequired (some t) then e0 ++ ["Title is required"]
        else if !hasMinLength t 3 then e0 ++ ["Title must be at least 3 characters long"]
        else e0
  let e2 :=
    match input.body with
    | none => e1
    | some b =>
        if !isRequired (some b) then e1 ++ ["Content is required"]
        else if !hasMinLength b 10 then e1 ++ ["Content must be at least 10 characters long"]
        else e1
  { isValid := e2.isEmpty, errors := e2 }

/-! ## Error taxonomy (`src/lib/utils/error.ts`) -/

/-- The data carried by an `ApiError` instance: message, HTTP status code and
machine code string. -/
structure ApiErrorData where
  message : String
  statusCode : Nat
  code : String
deriving Repr, DecidableEq

/-- `new ApiError(message, statusCode, code)`. -/
def mkApiError (message : String) (statusCode : Nat) (code : String) : ApiErrorData :=
  { message := message, statusCode := statusCode, code := code }

/-- `new ValidationError(message, field?)`: status 400, code
`VALIDATION_ERROR` (the `field` tag is not inspected anywhere in scope). -/
def mkValidationError (message : String) : ApiErrorData :=
  mkApiError message 400 "VALIDATION_ERROR"

/-- `new AuthenticationError(message)`: status 401, code `UNAUTHORIZED`. -/
def mkAuthenticationError (message : String) : ApiErrorData :=
  mkApiError message 401 "UNAUTHORIZED"

/-- `new NotFoundError(resource)`: message `` `${resource} not found` ``,
status 404, code `NOT_FOUND`. -/
def mkNotFoundError (resource : String) : ApiErrorData :=
  mkApiError (resource ++ " not found") 404 "NOT_FOUND"

/-- `new ConflictError(message)`: status 409, code `CONFLICT`. -/
def mkConflictError (message : String) : ApiErrorData :=
  mkApiError message 409 "CONFLICT"

/-- A thrown JavaScript value, as far as `handleApiError` can distinguish it:
an `ApiError` instance (any of the tagged kinds), some other `Error` (only
its message is observable), or a non-error value. -/
inductive Thrown where
  | api (e : ApiErrorData)
  | err (message : String)
  | other
deriving Repr, DecidableEq

/-- The `{error, statusCode, code}` record produced by `handleApiError`. -/
structure HandledError where
  error : String
  statusCode : Nat
  code : Option String
deriving Repr, DecidableEq

/-- `handleApiError` from error.ts: `ApiError` instances pass through their
own message/status/code; any other `Error` maps to its message with
500/`INTERNAL_ERROR`; a non-error value maps to a generic message with
500/`INTERNAL_ERROR`. -/
def handleApiError : Thrown → HandledError
  | .api e => { error := e.message, statusCode := e.statusCode, code := some e.code }
  | .err message => { error := message, statusCode := 500, code := some "INTERNAL_ERROR" }
  | .other => { error := "An unexpected error occurred", statusCode := 500,
                code := some "INTERNAL_ERROR" }

instance {ε α : Type} [DecidableEq ε] [DecidableEq α] : DecidableEq (Except ε α)
  | .ok a, .ok b =>
      if h : a = b then isTrue (by rw [h])
      else isFalse (by intro he; cases he; exact h rfl)
  | .ok _, .error _ => isFalse (by intro h; cases h)
  | .error _, .ok _ => isFalse (by intro h; cases h)
  | .error e, .error f =>
      if h : e = f then isTrue (by rw [h])
      else isFalse (by intro he; cases he; exact h rfl)

/-! ## Token service (`src/lib/auth.ts`) -/

/-- The JWT claim set `{id, name, username, email}` (`UserPayload` in
auth.ts). -/
structure UserPayload where
  id : Nat
  name : String
  username : String
  email : String
deriving Repr, DecidableEq

/-- Seven days in seconds: the `expiresIn: '7d'` window of `createToken`. -/
def sevenDays : Nat := 7 * 24 * 60 * 60

/-- A signed token: payload, expiry timestamp, and signature value.
Modelled from the spec: the `jsonwebtoken` library is an external
dependency (not under `src/`); per spec §4.3 it is modelled as an ideal
message-authentication scheme — the abstract function `mac` stands for
HMAC over the secret, the payload and the expiry claim. -/
structure Token where
  payload : UserPayload
  exp : Nat
  sig : Nat
deriving Repr, DecidableEq

/-- `createToken(user)` from auth.ts: signs the claim set with a 7-day
validity window relative to issuance time `now`. -/
def createToken (mac : UserPayload → Nat → Nat) (user : UserPayload) (now : Nat) : Token :=
  { payload := user, exp := now + sevenDays, sig := mac user (now + sevenDays) }

/-- `verifyToken(token)` from auth.ts: returns the claim set when the
signature checks out and the token is unexpired (`jwt.verify` rejects once
`now ≥ exp`), and `null` (`none`) otherwise.  The `try/catch` in the source
makes this total: every failure inside `jwt.verify` is caught and mapped to
`null`, so the function never throws — totality is structural here. -/
def verifyToken (mac : UserPayload → Nat → Nat) (t : Token) (now : Nat) : Option UserPayload :=
  if t.sig == mac t.payload t.exp && now < t.exp then some t.payload else none

/-! ## User service (`src/lib/services/userService.ts`) -/

/-- Input record of `UserService.create` (fields possibly `undefined` at
runtime, as the optional-chaining `input.x?.trim()` in the source admits). -/
structure CreateUserInput where
  name : Option String
  username : Option String
  email : Option String
deriving Repr, DecidableEq

/-- `UserService.findByEmail(email)`: exact-match `findUnique` on the email
column. -/
def UserService.findByEmail (s : Store) (email : String) : Option UserRec :=
  s.users.find? (fun u => u.email == email)

/-- The private `UserService.validateCreateUserInput`: returns the message of
the plain `Error` it would throw, or `none` when validation passes.  Note
the email and username regexes are tested on the *untrimmed* input here
(lines 167/173 of userService.ts), while the length checks trim. -/
def UserService.validateCreateUserInput (i : CreateUserInput) : Option String :=
  if !isRequired i.name then some "Name is required"
  else if !isRequired i.username then some "Username is required"
  else if !isRequired i.email then some "Email is required"
  else if !emailRegexMatch (i.email.getD "") then some "Invalid email format"
  else if !usernameRegexMatch (i.username.getD "") then
    some "Username can only contain letters, numbers, underscores, and dashes"
  else if (jsTrim (i.name.getD "")).toList.length < 2 then some "Name must be at least 2 characters long"
  else if (jsTrim (i.username.getD "")).toList.length < 3 then
    some "Username must be at least 3 characters long"
  else none

/-- Modelled from the spec: the Prisma schema file is not under `src/` (only
a later migration is), so the store-level unique constraints come from spec
§3: `email` and `username` are unique columns.  `prisma.user.create` rejects
a duplicate with an error whose message contains `"Unique constraint"`;
otherwise it inserts the row with a storage-assigned id. -/
def prismaUserCreate (s : Store) (name username email : String) (newId : Nat) :
    Except String (Store × UserRec) :=
  if s.users.any (fun u => u.email == email || u.username == username) then
    .error "Unique constraint failed on the fields"
  else
    let u : UserRec := { id := newId, name := name, username := username, email := email }
    .ok ({ s with users := s.users ++ [u] }, u)

/-- `UserService.create(userData)`: validate, normalize (trim name/username,
lower-case + trim email), insert.  The catch block inspects the thrown
message: if it contains `"Unique constraint"` it rethrows the plain error
`"User with this email or username already exists"`; every other thrown
value (including the validator's own plain errors) becomes the plain error
`"Failed to create user"`. -/
def UserService.create (s : Store) (i : CreateUserInput) (newId : Nat) :
    Store × Except Thrown UserRec :=
  match UserService.validateCreateUserInput i with
  | some msg =>
      if strIncludes msg "Unique constraint" then
        (s, .error (Thrown.err "User with this email or username already exists"))
      else
        (s, .error (Thrown.err "Failed to create user"))
  | none =>
      match prismaUserCreate s (jsTrim (i.name.getD "")) (jsTrim (i.username.getD ""))
          (jsTrim (jsToLower (i.email.getD ""))) newId with
      | .error msg =>
          if strIncludes msg "Unique constraint" then
            (s, .error (Thrown.err "User with this email or username already exists"))
          else
            (s, .error (Thrown.err "Failed to create user"))
      | .ok (s2, u) => (s2, .ok u)

/-! ## Auth service (`src/lib/services/authService.ts`) -/

/-- The private `AuthService.validateLoginInput`: throws `ValidationError`s;
the email regex is tested on the untrimmed input. -/
def AuthService.validateLoginInput (email : Option String) : Option ApiErrorData :=
  if !isRequired email then some (mkValidationError "Email is required")
  else if !emailRegexMatch (email.getD "") then some (mkValidationError "Invalid email format")
  else none

/-- `AuthService.login(loginData)`: validate, look the user up by (exact,
unnormalized) email, and throw `ValidationError('Invalid email')` when no
user matches; the catch block rethrows every `Error` instance unchanged. -/
def AuthService.login (s : Store) (email : Option String) : Except Thrown UserPayload :=
  match AuthService.validateLoginInput email with
  | some e => .error (Thrown.api e)
  | none =>
      match UserService.findByEmail s (email.getD "") with
      | none => .error (Thrown.api (mkValidationError "Invalid email"))
      | some u => .ok { id := u.id, name := u.name, username := u.username, email := u.email }

/-- The login route (`POST /api/auth/login`, src/unnamed/part_008): calls
`AuthService.login` and serializes success as 200 or the thrown value
through `handleApiError`.  Returns (status, error message if any). -/
def loginRoutePOST (s : Store) (email : Option String) : Nat × Option String :=
  match AuthService.login s email with
  | .ok _ => (200, none)
  | .error t =>
      let h := handleApiError t
      (h.statusCode, some h.error)

/-! ## Post service (`src/lib/services/postService.ts`) -/

/-- Filter record of `PostService.getAllPosts`.  `userId` is a JS number in
the source, kept as `Int` so that the zero/nonzero truthiness in the where
clause is expressible. -/
structure PostFilters where
  userId : Option Int
  includeDeleted : Option Bool
  page : Option Nat
  limit : Option Nat
deriving Repr, DecidableEq

/-- The `userId` part of the where clause: `...(userId && { userId })` — the
author condition is spread in only when `userId` is truthy (present and
nonzero). -/
def userIdCond (userId : Option Int) (p : PostRec) : Bool :=
  match userId with
  | none => true
  | some u => if u == 0 then true else ((p.userId : Int) == u)

/-- The full where clause of `getAllPosts`:
`...(userId && { userId }), ...(includeDeleted ? {} : { deleted: false })`. -/
def postWhere (userId : Option Int) (includeDeleted : Bool) (p : PostRec) : Bool :=
  userIdCond userId p && (if includeDeleted then true else p.deleted == false)

/-- The `orderBy: { id: 'desc' }` ordering. -/
def postDescOrder (a b : PostRec) : Prop := b.id ≤ a.id

instance : DecidableRel postDescOrder := fun a b =>
  inferInstanceAs (Decidable (b.id ≤ a.id))

instance : IsTotal PostRec postDescOrder :=
  ⟨fun a b => (Nat.le_total b.id a.id)⟩

instance : IsTrans PostRec postDescOrder :=
  ⟨fun _ _ _ h1 h2 => le_trans h2 h1⟩

/-- The result record of `getAllPosts`: `{posts, total, hasMore}`. -/
structure PostsPage where
  posts : List PostRec
  total : Nat
  hasMore : Bool
deriving Repr, DecidableEq

/-- `PostService.getAllPosts(filters)`: defaults `includeDeleted=false`,
`page=1`, `limit=10`; `skip=(page-1)*limit`; `findMany` with the where
clause, ordered by id descending, with skip/take; `count` under the same
where clause; `hasMore = skip + posts.length < total`. -/
def PostService.getAllPosts (s : Store) (filters : PostFilters) : PostsPage :=
  let userId := filters.userId
  let includeDeleted := filters.includeDeleted.getD false
  let page := filters.page.getD 1
  let limit := filters.limit.getD 10
  let skip := (page - 1) * limit
  let matched := s.posts.filter (postWhere userId includeDeleted)
  let posts := ((List.insertionSort postDescOrder matched).drop skip).take limit
  let total := matched.length
  { posts := posts, total := total, hasMore := decide (skip + posts.length < total) }

/-- Input record of `PostService.createPost` (fields possibly `undefined`, as
the optional-chaining `input.title?.trim()` admits). -/
structure CreatePostInput where
  title : Option String
  body : Option String
deriving Repr, DecidableEq

/-- The private `PostService.validateCreatePostInput`: throws
`ValidationError`s — title required, body required, title ≥ 3 chars after
trim, body ≥ 10 chars after trim, in that order. -/
def PostService.validateCreatePostInput (i : CreatePostInput) : Option ApiErrorData :=
  if !isRequired i.title then some (mkValidationError "Title is required")
  else if !isRequired i.body then some (mkValidationError "Body is required")
  else if (jsTrim (i.title.getD "")).toList.length < 3 then
    some (mkValidationError "Title must be at least 3 characters long")
  else if (jsTrim (i.body.getD "")).toList.length < 10 then
    some (mkValidationError "Body must be at least 10 characters long")
  else none

/-- `prisma.post.create`: inserts a row with a storage-assigned id; the
schema defaults give `deleted = false` and `deletedAt = null`. -/
def prismaPostCreate (s : Store) (userId : Nat) (title body : String) (newId : Nat) :
    Store × PostRec :=
  let p : PostRec :=
    { id := newId, title := title, body := body, userId := userId,
      deleted := false, deletedAt := none }
  ({ s with posts := s.posts ++ [p] }, p)

/-- `PostService.createPost(userId, postData)`: validates, then inserts with
trimmed title/body and `userId = actor`.  The catch block at lines 118–121
replaces *every* thrown value — including the `ValidationError`s raised by
the validator — with the plain error `"Failed to create post"`. -/
def PostService.createPost (s : Store) (userId : Nat) (i : CreatePostInput) (newId : Nat) :
    Store × Except Thrown PostRec :=
  match PostService.validateCreatePostInput i with
  | some _ => (s, .error (Thrown.err "Failed to create post"))
  | none =>
      let r := prismaPostCreate s userId (jsTrim (i.title.getD "")) (jsTrim (i.body.getD "")) newId
      (r.1, .ok r.2)

/-- `PostService.deletePost(id, userId)` (lines 180–216): `findUnique` the
post, then three short-circuiting checks — existence, not already deleted,
ownership — each throwing a distinct plain error; only then `update` the row
to `deleted = true`, `deletedAt = now`.  The catch block rethrows every
`Error` unchanged, so the three messages survive to the caller.  Returns the
resulting store (unchanged when a check throws, since the throw precedes the
update) and the thrown value, if any. -/
def PostService.deletePost (s : Store) (id userId : Nat) (now : Nat) :
    Store × Option Thrown :=
  match s.posts.find? (fun p => p.id == id) with
  | none => (s, some (Thrown.err "Post not found"))
  | some post =>
      if post.deleted then (s, some (Thrown.err "Post has already been deleted"))
      else if post.userId != userId then
        (s, some (Thrown.err "You can only delete your own posts"))
      else
        ({ s with posts := s.posts.map (fun p =>
            if p.id == id then { p with deleted := true, deletedAt := some now } else p) },
         none)

/-! ## HTTP endpoint layer (`src/unnamed/part_009`, `src/unnamed/part_008`) -/

/-- A JavaScript number as the route handlers observe it after `parseInt`:
either `NaN` or an integer. -/
inductive JSNum where
  | nan
  | num (n : Int)
deriving Repr, DecidableEq

/-- JS `<` against an integer bound: every comparison with `NaN` is false. -/
def JSNum.lt (a : JSNum) (b : Int) : Bool :=
  match a with
  | .nan => false
  | .num n => n < b

/-- JS `>` against an integer bound: every comparison with `NaN` is false. -/
def JSNum.gt (a : JSNum) (b : Int) : Bool :=
  match a with
  | .nan => false
  | .num n => b < n

/-- The character is a hexadecimal digit. -/
def isHexDigitChar (c : Char) : Bool :=
  c.isDigit || ('a' ≤ c && c ≤ 'f') || ('A' ≤ c && c ≤ 'F')

/-- The numeric value of a (decimal or hex) digit character. -/
def digitVal (c : Char) : Nat :=
  if c.isDigit then c.toNat - 48
  else if 'a' ≤ c then c.toNat - 87
  else c.toNat - 55

/-- JS `parseInt(s)` (radix 10, or 16 after a `0x`/`0X` prefix).  Leading
whitespace is skipped (ASCII whitespace in this model), an optional sign is
read, then the longest digit run; no digits means `NaN`; trailing garbage is
ignored. -/
def parseIntJS (s : String) : JSNum :=
  let cs := (jsTrim s).toList
  let signed : Bool × List Char :=
    match cs with
    | '-' :: t => (true, t)
    | '+' :: t => (false, t)
    | t => (false, t)
  let hexTail : Option (List Char) :=
    match signed.2 with
    | '0' :: 'x' :: t => some t
    | '0' :: 'X' :: t => some t
    | _ => none
  let base : Nat := match hexTail with | some _ => 16 | none => 10
  let digits : List Char :=
    match hexTail with
    | some t => t.takeWhile (fun c => isHexDigitChar c)
    | none => signed.2.takeWhile (fun c => c.isDigit)
  if digits.isEmpty then .nan
  else
    let v : Nat := digits.foldl (fun acc c => acc * base + digitVal c) 0
    .num (if signed.1 then -(v : Int) else (v : Int))

/-- `searchParams.get(name) || undefined`: an absent or empty query
parameter collapses to `undefined`. -/
def effParam (v : Option String) : Option String :=
  match v with
  | none => none
  | some s => if s.toList.isEmpty then none else some s

/-- The route's `page` number: `queryParams.page ? parseInt(queryParams.page)
: 1`. -/
def routePageNum (pageP : Option String) : JSNum :=
  match effParam pageP with
  | some str => parseIntJS str
  | none => .num 1

/-- The route's `limit` number: defaults to 10. -/
def routeLimitNum (limitP : Option String) : JSNum :=
  match effParam limitP with
  | some str => parseIntJS str
  | none => .num 10

/-- The route's `userId` filter: `undefined` stays `undefined`; a `NaN`
parse result is falsy in the service's where-clause spread, which is
extensionally the same as absent, so both map to `none` here. -/
def routeUserId (userIdP : Option String) : Option Int :=
  match effParam userIdP with
  | none => none
  | some str =>
      match parseIntJS str with
      | .nan => none
      | .num u => some u

/-- The observable outcome of `GET /api/posts`. -/
inductive GetPostsResult where
  | badPage
  | badLimit
  | ok (posts : List PostRec) (total : Nat) (hasMore : Bool) (page : Int) (limit : Int)
  | serverError
deriving Repr, DecidableEq

/-- The HTTP status of each `GET /api/posts` outcome. -/
def GetPostsResult.status : GetPostsResult → Nat
  | .badPage => 400
  | .badLimit => 400
  | .ok _ _ _ _ _ => 200
  | .serverError => 500

/-- `GET /api/posts` (src/unnamed/part_009 lines 11–60): parse the query
parameters, reject `page < 1` then `limit < 1 || limit > 100` with 400 —
note both comparisons are false when the value is `NaN` — then call
`PostService.getAllPosts` and answer 200 with
`{posts, total, hasMore, page, limit}`.  When a `NaN` page or limit slips
past the bounds checks, the store rejects the non-integer skip/take and the
catch block answers 500 (the store's rejection of `NaN` is external
behavior, modelled as the `serverError` branch). -/
def postsRouteGET (s : Store) (userIdP pageP limitP : Option String) : GetPostsResult :=
  let pageN := routePageNum pageP
  let limitN := routeLimitNum limitP
  if pageN.lt 1 then .badPage
  else if limitN.lt 1 || limitN.gt 100 then .badLimit
  else
    match pageN, limitN with
    | .num p, .num l =>
        let r := PostService.getAllPosts s
          { userId := routeUserId userIdP, includeDeleted := none,
            page := some p.toNat, limit := some l.toNat }
        .ok r.posts r.total r.hasMore p l
    | _, _ => .serverError

/-- `POST /api/posts` (src/unnamed/part_009 lines 66–92): 401 via
`AuthenticationError` when no actor; otherwise `PostService.createPost`,
201 on success, and `handleApiError` on a thrown value.  Returns the
resulting store, the status and the error message, if any. -/
def postsRoutePOST (s : Store) (actor : Option UserPayload) (body : CreatePostInput)
    (newId : Nat) : Store × Nat × Option String :=
  match actor with
  | none =>
      let h := handleApiError (Thrown.api (mkAuthenticationError "Unauthorized"))
      (s, h.statusCode, some h.error)
  | some user =>
      match PostService.createPost s user.id body newId with
      | (s2, .ok _) => (s2, 201, none)
      | (s2, .error t) =>
          let h := handleApiError t
          (s2, h.statusCode, some h.error)

/-! ## Spec-side characterizations

These definitions follow the specification's wording (per-field error lists
for the composite validators); the theorems below compare them with the
embedded source functions. -/

/-- Per the spec, the errors contributed by the `name` field alone. -/
def nameFieldErrors : Option String → List String
  | none => []
  | some nm =>
      if !isRequired (some nm) then ["Name is required"]
      else if !hasMinLength nm 2 then ["Name must be at least 2 characters long"]
      else []

/-- Per the spec, the errors contributed by the `username` field alone. -/
def usernameFieldErrors : Option String → List String
  | none => []
  | some un =>
      if !isRequired (some un) then ["Username is required"]
      else if !hasMinLength un 3 then ["Username must be at least 3 characters long"]
      else if !isValidUsername un then
        ["Username can only contain letters, numbers, underscores, and dashes"]
      else []

/-- Per the spec, the errors contributed by the `email` field alone. -/
def emailFieldErrors : Option String → List String
  | none => []
  | some em =>
      if !isRequired (some em) then ["Email is required"]
      else if !isValidEmail em then ["Invalid email format"]
      else []

/-- Per the spec, the errors contributed by the `title` field alone. -/
def titleFieldErrors : Option String → List String
  | none => []
  | some t =>
      if !isRequired (some t) then ["Title is required"]
      else if !hasMinLength t 3 then ["Title must be at least 3 characters long"]
      else []

/-- Per the spec, the errors contributed by the `body` field alone. -/
def bodyFieldErrors : Option String → List String
  | none => []
  | some b =>
      if !isRequired (some b) then ["Content is required"]
      else if !hasMinLength b 10 then ["Content must be at least 10 characters long"]
      else []

/-! ## Concrete instances used by the witnesses and counterexamples -/

/-- A live post owned by user 1. -/
def samplePost : PostRec :=
  { id := 1, title := "Hello", body := "World body!", userId := 1,
    deleted := false, deletedAt := none }

/-- A soft-deleted post owned by user 2. -/
def sampleDeletedPost : PostRec :=
  { id := 2, title := "Gone", body := "Deleted body", userId := 2,
    deleted := true, deletedAt := some 3 }

/-- A registered user. -/
def sampleUser : UserRec := { id := 1, name := "Bob", username := "bob", email := "a@b.c" }

/-- The claim set of the registered user's session. -/
def sampleActor : UserPayload := { id := 1, name := "Bob", username := "bob", email := "a@b.c" }

/-- A store with one user, one live post and one soft-deleted post. -/
def sampleStore : Store := { users := [sampleUser], posts := [samplePost, sampleDeletedPost] }

/-- The normalized row a fresh signup for "Ann" stores. -/
def annUser : UserRec := { id := 2, name := "Ann", username := "ann", email := "new@b.c" }

/-- The empty store. -/
def emptyStore : Store := { users := [], posts := [] }

/-- A store holding fifteen non-deleted posts (ids 1–15). -/
def fifteenStore : Store :=
  { users := [],
    posts := (List.range 15).map (fun i =>
      { id := i + 1, title := "", body := "", userId := 1,
        deleted := false, deletedAt := none }) }

/-- A store holding a single post authored by user 7. -/
def store7 : Store :=
  { users := [],
    posts := [{ id := 1, title := "T", body := "B", userId := 7,
                deleted := false, deletedAt := none }] }

/-! ## Helper lemmas -/

/-- `find?` by id commutes with the delete-marking `map` of `deletePost`,
because marking a row deleted does not change its id. -/
theorem find?_markDeleted (posts : List PostRec) (id now : Nat) :
    (posts.map (fun a =>
        if a.id == id then { a with deleted := true, deletedAt := some now } else a)).find?
        (fun q => q.id == id) =
      (posts.find? (fun q => q.id == id)).map
        (fun a => if a.id == id then { a with deleted := true, deletedAt := some now } else a) := by
  have hcomp : ((fun q : PostRec => q.id == id) ∘ (fun a : PostRec =>
      if a.id == id then { a with deleted := true, deletedAt := some now } else a)) =
      (fun q : PostRec => q.id == id) := by
    funext a
    by_cases h : a.id = id
    · simp [h]
    · simp [h]
  rw [List.find?_map, hcomp]

/-! ## Claims -/

/-- C9: `handleApiError` is total (it is a function on every thrown value)
and returns the known tagged kinds' own message/status/code (Validation 400,
Authentication 401, NotFound 404, Conflict 409, generic ApiError as built),
`{message, 500, INTERNAL_ERROR}` for any other `Error`, and a fixed generic
message with 500/`INTERNAL_ERROR` for a non-error value. -/
theorem C9_handleApiError_translation (m r : String) (st : Nat) (c : String) :
    handleApiError (Thrown.api (mkValidationError m)) =
      { error := m, statusCode := 400, code := some "VALIDATION_ERROR" } ∧
    handleApiError (Thrown.api (mkAuthenticationError m)) =
      { error := m, statusCode := 401, code := some "UNAUTHORIZED" } ∧
    handleApiError (Thrown.api (mkNotFoundError r)) =
      { error := r ++ " not found", statusCode := 404, code := some "NOT_FOUND" } ∧
    handleApiError (Thrown.api (mkConflictError m)) =
      { error := m, statusCode := 409, code := some "CONFLICT" } ∧
    handleApiError (Thrown.api (mkApiError m st c)) =
      { error := m, statusCode := st, code := some c } ∧
    handleApiError (Thrown.err m) =
      { error := m, statusCode := 500, code := some "INTERNAL_ERROR" } ∧
    handleApiError Thrown.other =
      { error := "An unexpected error occurred", statusCode := 500,
        code := some "INTERNAL_ERROR" } :=
  ⟨rfl, rfl, rfl, rfl, rfl, rfl, rfl⟩

/-- C2: round-trip — for any claim set and signing function, verifying a
just-issued token inside the 7-day window returns exactly the claims; at or
after expiry verification returns `none`; a token whose signature does not
match the signing function's value is rejected; and verification is a total
function, always returning `some`/`none` (the source's `try/catch` never
lets `jwt.verify` throw to the caller). -/
theorem C2_verify_createToken (mac : UserPayload → Nat → Nat) (claims : UserPayload)
    (issuedAt now : Nat) :
    (now < issuedAt + sevenDays →
      verifyToken mac (createToken mac claims issuedAt) now = some claims) ∧
    (issuedAt + sevenDays ≤ now →
      verifyToken mac (createToken mac claims issuedAt) now = none) ∧
    (∀ t : Token, t.sig ≠ mac t.payload t.exp → verifyToken mac t now = none) ∧
    (∀ t : Token, verifyToken mac t now = some t.payload ∨ verifyToken mac t now = none) := by
  refine ⟨?_, ?_, ?_, ?_⟩
  · intro h
    simp [verifyToken, createToken, h]
  · intro h
    simp [verifyToken, createToken, Nat.not_lt.mpr h]
  · intro t h
    simp [verifyToken, h]
  · intro t
    unfold verifyToken
    by_cases h : (t.sig == mac t.payload t.exp && decide (now < t.exp)) = true
    · rw [if_pos h]
      exact Or.inl rfl
    · rw [if_neg h]
      exact Or.inr rfl

/-- Witness for C2 at a concrete signing function, claim set and clock. -/
theorem C2_verify_createToken_witness :
    (0 < 0 + sevenDays ∧
      verifyToken (fun _ e => e) (createToken (fun _ e => e) sampleActor 0) 0 =
        some sampleActor) ∧
    (0 + sevenDays ≤ sevenDays ∧
      verifyToken (fun _ e => e) (createToken (fun _ e => e) sampleActor 0) sevenDays = none) ∧
    verifyToken (fun _ e => e) { payload := sampleActor, exp := 5, sig := 4 } 0 = none :=
  ⟨⟨by decide, (C2_verify_createToken (fun _ e => e) sampleActor 0 0).1 (by decide)⟩,
   ⟨by decide, (C2_verify_createToken (fun _ e => e) sampleActor 0 sevenDays).2.1 (by decide)⟩,
   (C2_verify_createToken (fun _ e => e) sampleActor 0 0).2.2.1
     { payload := sampleActor, exp := 5, sig := 4 } (by decide)⟩

/-- C1: `deletePost` — a missing post fails with the `"Post not found"`
error; an already-deleted post fails with the distinct
`"Post has already been deleted"` error regardless of the caller (the
existence and already-deleted checks precede the ownership check); a live
post owned by someone else fails with the ownership violation and the store
— in particular the post's `deleted = false` flag — is untouched; only when
all three checks pass does the post flip to `deleted = true` with a non-null
`deletedAt`. -/
theorem C1_deletePost_checks (s : Store) (id actor now : Nat) :
    (s.posts.find? (fun p => p.id == id) = none →
        PostService.deletePost s id actor now = (s, some (Thrown.err "Post not found"))) ∧
    (∀ p, s.posts.find? (fun q => q.id == id) = some p → p.deleted = true →
        PostService.deletePost s id actor now =
          (s, some (Thrown.err "Post has already been deleted"))) ∧
    (∀ p, s.posts.find? (fun q => q.id == id) = some p → p.deleted = false →
        p.userId ≠ actor →
        PostService.deletePost s id actor now =
          (s, some (Thrown.err "You can only delete your own posts"))) ∧
    (∀ p, s.posts.find? (fun q => q.id == id) = some p → p.deleted = false →
        p.userId = actor →
        (PostService.deletePost s id actor now).2 = none ∧
        (PostService.deletePost s id actor now).1.posts.find? (fun q => q.id == id) =
          some { p with deleted := true, deletedAt := some now }) := by
  refine ⟨?_, ?_, ?_, ?_⟩
  · intro h
    simp [PostService.deletePost, h]
  · intro p hf hd
    simp [PostService.deletePost, hf, hd]
  · intro p hf hd hown
    simp [PostService.deletePost, hf, hd, hown]
  · intro p hf hd hown
    have hpid : p.id = id := by simpa using List.find?_some hf
    have heq : PostService.deletePost s id actor now =
        ({ s with posts := s.posts.map (fun a =>
            if a.id == id then { a with deleted := true, deletedAt := some now } else a) },
          none) := by
      simp [PostService.deletePost, hf, hd, hown]
    rw [heq]
    refine ⟨rfl, ?_⟩
    rw [find?_markDeleted, hf]
    simp [hpid]

/-- Witness for C1: all four branches exercised on the concrete store. -/
theorem C1_deletePost_checks_witness :
    (sampleStore.posts.find? (fun p => p.id == 9) = none ∧
      PostService.deletePost sampleStore 9 1 5 =
        (sampleStore, some (Thrown.err "Post not found"))) ∧
    (sampleStore.posts.find? (fun q => q.id == 2) = some sampleDeletedPost ∧
      PostService.deletePost sampleStore 2 1 5 =
        (sampleStore, some (Thrown.err "Post has already been deleted"))) ∧
    (sampleStore.posts.find? (fun q => q.id == 1) = some samplePost ∧
      PostService.deletePost sampleStore 1 2 5 =
        (sampleStore, some (Thrown.err "You can only delete your own posts"))) ∧
    ((PostService.deletePost sampleStore 1 1 5).2 = none ∧
      (PostService.deletePost sampleStore 1 1 5).1.posts.find? (fun q => q.id == 1) =
        some { samplePost with deleted := true, deletedAt := some 5 }) :=
  ⟨⟨by decide, (C1_deletePost_checks sampleStore 9 1 5).1 (by decide)⟩,
   ⟨by decide, (C1_deletePost_checks sampleStore 2 1 5).2.1 sampleDeletedPost
      (by decide) (by decide)⟩,
   ⟨by decide, (C1_deletePost_checks sampleStore 1 2 5).2.2.1 samplePost
      (by decide) (by decide) (by decide)⟩,
   (C1_deletePost_checks sampleStore 1 1 5).2.2.2 samplePost
      (by decide) (by decide) (by decide)⟩

/-- C10 (implicit): filtering `getAllPosts` by `userId = 0` is a no-op — `0`
is falsy, so the where-clause spread drops the author condition and both the
page and the total coincide with the unfiltered call; on a store whose only
post belongs to user 7, the `userId = 0` filter still returns that post
rather than an empty page. -/
theorem C10_userId_zero_ignored (s : Store) (incl : Option Bool) (pg lim : Option Nat) :
    PostService.getAllPosts s ⟨some 0, incl, pg, lim⟩ =
      PostService.getAllPosts s ⟨none, incl, pg, lim⟩ ∧
    (PostService.getAllPosts store7 ⟨some 0, none, none, none⟩).posts =
      [{ id := 1, title := "T", body := "B", userId := 7,
         deleted := false, deletedAt := none }] ∧
    (PostService.getAllPosts store7 ⟨some 0, none, none, none⟩).total = 1 := by
  refine ⟨?_, by decide, by decide⟩
  have h : postWhere (some 0) = postWhere none := by
    funext b p
    simp [postWhere, userIdCond]
  simp [PostService.getAllPosts, h]

/-- The errors of `validateUserInput` decompose into the per-field error
lists, each field contributing independently. -/
theorem validateUserInput_decomp (n u e : Option String) :
    (validateUserInput ⟨n, u, e⟩).errors =
      nameFieldErrors n ++ usernameFieldErrors u ++ emailFieldErrors e := by
  cases n <;> cases u <;> cases e <;>
    simp only [validateUserInput, nameFieldErrors, usernameFieldErrors, emailFieldErrors] <;>
    (try split_ifs) <;> simp

/-- The errors of `validatePostInput` decompose into the per-field error
lists. -/
theorem validatePostInput_decomp (t b : Option String) :
    (validatePostInput ⟨t, b⟩).errors = titleFieldErrors t ++ bodyFieldErrors b := by
  cases t <;> cases b <;>
    simp only [validatePostInput, titleFieldErrors, bodyFieldErrors] <;>
    (try split_ifs) <;> simp

/-- C8: the composite validators check only the fields present — the error
list is the concatenation of independent per-field contributions; an absent
field contributes nothing; a present field that trims to empty contributes
exactly the required-field error (no length check runs); a present non-empty
field below its minimum length (name 2, username 3, title 3, body 10)
contributes the too-short error; `isValid` holds exactly when the error list
is empty; and the two concrete spec examples evaluate as stated. -/
theorem C8_partial_validation (input : UserInputArgs) (pinput : PostInputArgs) (s : String) :
    (validateUserInput input).errors =
      nameFieldErrors input.name ++ usernameFieldErrors input.username ++
        emailFieldErrors input.email ∧
    (validatePostInput pinput).errors = titleFieldErrors pinput.title ++
      bodyFieldErrors pinput.body ∧
    ((validateUserInput input).isValid = true ↔ (validateUserInput input).errors = []) ∧
    ((validatePostInput pinput).isValid = true ↔ (validatePostInput pinput).errors = []) ∧
    nameFieldErrors none = [] ∧ usernameFieldErrors none = [] ∧
    emailFieldErrors none = [] ∧ titleFieldErrors none = [] ∧ bodyFieldErrors none = [] ∧
    (isRequired (some s) = false →
        nameFieldErrors (some s) = ["Name is required"] ∧
        usernameFieldErrors (some s) = ["Username is required"] ∧
        emailFieldErrors (some s) = ["Email is required"] ∧
        titleFieldErrors (some s) = ["Title is required"] ∧
        bodyFieldErrors (some s) = ["Content is required"]) ∧
    (isRequired (some s) = true → hasMinLength s 2 = false →
        nameFieldErrors (some s) = ["Name must be at least 2 characters long"]) ∧
    (isRequired (some s) = true → hasMinLength s 3 = false →
        usernameFieldErrors (some s) = ["Username must be at least 3 characters long"] ∧
        titleFieldErrors (some s) = ["Title must be at least 3 characters long"]) ∧
    (isRequired (some s) = true → hasMinLength s 10 = false →
        bodyFieldErrors (some s) = ["Content must be at least 10 characters long"]) ∧
    validatePostInput ⟨some "ab", some "short"⟩ =
      ⟨false, ["Title must be at least 3 characters long",
               "Content must be at least 10 characters long"]⟩ ∧
    validatePostInput ⟨some "Valid Title", some "Long enough body text"⟩ = ⟨true, []⟩ := by
  obtain ⟨n, u, e⟩ := input
  obtain ⟨t, b⟩ := pinput
  refine ⟨validateUserInput_decomp n u e, validatePostInput_decomp t b, ?_, ?_,
    rfl, rfl, rfl, rfl, rfl, ?_, ?_, ?_, ?_, by decide, by decide⟩
  · cases n <;> cases u <;> cases e <;>
      simp only [validateUserInput] <;> (try split_ifs) <;> simp
  · cases t <;> cases b <;>
      simp only [validatePostInput] <;> (try split_ifs) <;> simp
  · intro h
    simp [nameFieldErrors, usernameFieldErrors, emailFieldErrors, titleFieldErrors,
      bodyFieldErrors, h]
  · intro h1 h2
    simp [nameFieldErrors, h1, h2]
  · intro h1 h2
    exact ⟨by simp [usernameFieldErrors, h1, h2], by simp [titleFieldErrors, h1, h2]⟩
  · intro h1 h2
    simp [bodyFieldErrors, h1, h2]

/-- Witness for C8 at concrete inputs: a present-but-blank field, a too-short
field, and the spec's two examples. -/
theorem C8_partial_validation_witness :
    (isRequired (some "  ") = false ∧
      titleFieldErrors (some "  ") = ["Title is required"]) ∧
    (isRequired (some "ab") = true ∧ hasMinLength "ab" 3 = false ∧
      titleFieldErrors (some "ab") = ["Title must be at least 3 characters long"]) ∧
    validateUserInput ⟨some "Bob", none, some "nonsense"⟩ =
      ⟨false, ["Invalid email format"]⟩ :=
  ⟨⟨by decide, ((C8_partial_validation ⟨none, none, none⟩ ⟨none, none⟩ "  ").2.2.2.2.2.2.2.2.2.1
      (by decide)).2.2.2.1⟩,
   ⟨by decide, by decide,
    ((C8_partial_validation ⟨none, none, none⟩ ⟨none, none⟩ "ab").2.2.2.2.2.2.2.2.2.2.2.1
      (by decide) (by decide)).2⟩,
   by decide⟩

/-- C3 counterexample: a second create against the already-registered email
`"a@b.c"` fails with the plain (untagged) error `"User with this email or
username already exists"`, which `handleApiError` maps to HTTP 500 /
`INTERNAL_ERROR` — not the Conflict kind and not 409 as the claim states. -/
theorem C3_counterexample :
    (UserService.create sampleStore ⟨some "Ann", some "ann", some "a@b.c"⟩ 2).2 =
      .error (Thrown.err "User with this email or username already exists") ∧
    handleApiError (Thrown.err "User with this email or username already exists") =
      { error := "User with this email or username already exists",
        statusCode := 500, code := some "INTERNAL_ERROR" } := by
  exact ⟨by decide, by decide⟩

/-- C3 (amended): for valid input, `UserService.create` persists a user whose
email is lower-cased and trimmed and whose name and username are trimmed;
a create whose normalized email or trimmed username collides with a stored
user fails with the distinct plain error `"User with this email or username
already exists"` — an untagged `Error` that the endpoint layer maps to
HTTP 500 / `INTERNAL_ERROR`, not to the Conflict kind / 409 — and the store
is unchanged. -/
theorem C3_create_normalizes_and_conflicts (s : Store) (i : CreateUserInput) (newId : Nat)
    (hv : UserService.validateCreateUserInput i = none) :
    (s.users.any (fun u => u.email == jsTrim (jsToLower (i.email.getD "")) ||
        u.username == jsTrim (i.username.getD "")) = false →
      UserService.create s i newId =
        ({ s with users := s.users ++
            [{ id := newId, name := jsTrim (i.name.getD ""),
               username := jsTrim (i.username.getD ""),
               email := jsTrim (jsToLower (i.email.getD "")) }] },
          .ok { id := newId, name := jsTrim (i.name.getD ""),
                username := jsTrim (i.username.getD ""),
                email := jsTrim (jsToLower (i.email.getD "")) })) ∧
    (s.users.any (fun u => u.email == jsTrim (jsToLower (i.email.getD "")) ||
        u.username == jsTrim (i.username.getD "")) = true →
      UserService.create s i newId =
        (s, .error (Thrown.err "User with this email or username already exists")) ∧
      (handleApiError
        (Thrown.err "User with this email or username already exists")).statusCode = 500) := by
  constructor
  · intro hdup
    simp [UserService.create, hv, prismaUserCreate, hdup]
  · intro hdup
    refine ⟨?_, rfl⟩
    have hinc : strIncludes "Unique constraint failed on the fields" "Unique constraint" = true := by
      decide
    simp [UserService.create, hv, prismaUserCreate, hdup, hinc]

/-- Witness for C3: a fresh create stores the normalized row; a duplicate
create fails with the plain already-exists error. -/
theorem C3_create_witness :
    (UserService.validateCreateUserInput ⟨some " Ann ", some "ann", some "New@b.C"⟩ = none ∧
      UserService.create sampleStore ⟨some " Ann ", some "ann", some "New@b.C"⟩ 2 =
        ({ users := [sampleUser, annUser], posts := sampleStore.posts }, .ok annUser)) ∧
    (UserService.validateCreateUserInput ⟨some "Ann", some "ann", some "A@b.C"⟩ = none ∧
      UserService.create sampleStore ⟨some "Ann", some "ann", some "A@b.C"⟩ 2 =
        (sampleStore, .error (Thrown.err "User with this email or username already exists"))) := by
  refine ⟨⟨by decide, ?_⟩, ⟨by decide, ?_⟩⟩
  · have h := (C3_create_normalizes_and_conflicts sampleStore
      ⟨some " Ann ", some "ann", some "New@b.C"⟩ 2 (by decide)).1 (by decide)
    exact h.trans (by decide)
  · exact ((C3_create_normalizes_and_conflicts sampleStore
      ⟨some "Ann", some "ann", some "A@b.C"⟩ 2 (by decide)).2 (by decide)).1

/-- C4 counterexample: on the empty store, logging in with the well-formed
but unknown email `"a@b.c"` fails with `ValidationError("Invalid email")`
and the login route answers HTTP 400 — not the NotFound kind / 404 the claim
states. -/
theorem C4_counterexample :
    AuthService.login emptyStore (some "a@b.c") =
      .error (Thrown.api (mkValidationError "Invalid email")) ∧
    loginRoutePOST emptyStore (some "a@b.c") = (400, some "Invalid email") := by
  exact ⟨by decide, by decide⟩

/-- C4 (amended): a login whose email is well-formed but matches no stored
user fails with the Validation kind — `ValidationError("Invalid email")`,
HTTP 400 — the same kind (different message) as a malformed email, which
fails with `ValidationError("Invalid email format")`, HTTP 400.  No
NotFound / 404 outcome exists on this path. -/
theorem C4_login_unknown_email (s : Store) (e : String)
    (hreq : isRequired (some e) = true)
    (hre : emailRegexMatch e = true)
    (hnf : UserService.findByEmail s e = none) :
    AuthService.login s (some e) = .error (Thrown.api (mkValidationError "Invalid email")) ∧
    loginRoutePOST s (some e) = (400, some "Invalid email") ∧
    (∀ e2, isRequired (some e2) = true → emailRegexMatch e2 = false →
      AuthService.login s (some e2) =
        .error (Thrown.api (mkValidationError "Invalid email format")) ∧
      loginRoutePOST s (some e2) = (400, some "Invalid email format")) := by
  have hlog : AuthService.login s (some e) =
      .error (Thrown.api (mkValidationError "Invalid email")) := by
    simp [AuthService.login, AuthService.validateLoginInput, hreq, hre, hnf]
  refine ⟨hlog, ?_, ?_⟩
  · simp [loginRoutePOST, hlog, handleApiError, mkValidationError, mkApiError]
  · intro e2 h1 h2
    have hlog2 : AuthService.login s (some e2) =
        .error (Thrown.api (mkValidationError "Invalid email format")) := by
      simp [AuthService.login, AuthService.validateLoginInput, h1, h2]
    exact ⟨hlog2, by simp [loginRoutePOST, hlog2, handleApiError, mkValidationError, mkApiError]⟩

/-- Witness for C4 on the empty store with concrete emails. -/
theorem C4_login_unknown_email_witness :
    (isRequired (some "x@y.z") = true ∧ emailRegexMatch "x@y.z" = true ∧
      UserService.findByEmail emptyStore "x@y.z" = none ∧
      loginRoutePOST emptyStore (some "x@y.z") = (400, some "Invalid email")) ∧
    loginRoutePOST emptyStore (some "nonsense") = (400, some "Invalid email format") :=
  ⟨⟨by decide, by decide, by decide,
    (C4_login_unknown_email emptyStore "x@y.z" (by decide) (by decide) (by decide)).2.1⟩,
   ((C4_login_unknown_email emptyStore "x@y.z" (by decide) (by decide) (by decide)).2.2
      "nonsense" (by decide) (by decide)).2⟩

/-- C5: the claim is right about the specification's intent and the code has
a slip — `validateCreatePostInput` raises a `ValidationError` carrying
status 400 for a title shorter than 3 characters, but the catch-all in
`createPost` (postService.ts lines 118–121) replaces that tagged error with
the plain `Error("Failed to create post")`, so the endpoint answers HTTP
500 / `INTERNAL_ERROR` instead of the claimed 400; the store is unchanged
(no post is persisted). -/
theorem C5_createPost_validation_swallowed :
    PostService.validateCreatePostInput ⟨some "ab", some "0123456789"⟩ =
      some (mkValidationError "Title must be at least 3 characters long") ∧
    (mkValidationError "Title must be at least 3 characters long").statusCode = 400 ∧
    postsRoutePOST sampleStore (some sampleActor) ⟨some "ab", some "0123456789"⟩ 3 =
      (sampleStore, 500, some "Failed to create post") := by
  exact ⟨by decide, rfl, by decide⟩

/-- C6: `getAllPosts` (with defaults `includeDeleted = false`, `page = 1`,
`limit = 10` and `skip = (page-1)*limit`, for `page ≥ 1` as the route
guarantees) returns exactly the posts matching the where clause, ordered by
id descending, after dropping `skip` rows and taking at most `limit`;
`total` counts every post matching the same filter; the returned page
length is `min limit (total - skip)`; and
`hasMore = skip + returnedCount < total`. -/
theorem C6_getAllPosts_pagination (s : Store) (uid : Option Int) (incl : Option Bool)
    (pg lim : Option Nat) (hpg : 1 ≤ pg.getD 1) :
    (PostService.getAllPosts s ⟨uid, incl, pg, lim⟩).total =
      (s.posts.filter (postWhere uid (incl.getD false))).length ∧
    (PostService.getAllPosts s ⟨uid, incl, pg, lim⟩).posts =
      ((List.insertionSort postDescOrder
          (s.posts.filter (postWhere uid (incl.getD false)))).drop
          ((pg.getD 1 - 1) * lim.getD 10)).take (lim.getD 10) ∧
    (PostService.getAllPosts s ⟨uid, incl, pg, lim⟩).posts.length =
      min (lim.getD 10)
        ((s.posts.filter (postWhere uid (incl.getD false))).length -
          (pg.getD 1 - 1) * lim.getD 10) ∧
    List.Sorted postDescOrder (PostService.getAllPosts s ⟨uid, incl, pg, lim⟩).posts ∧
    (∀ p ∈ (PostService.getAllPosts s ⟨uid, incl, pg, lim⟩).posts,
        postWhere uid (incl.getD false) p = true) ∧
    (PostService.getAllPosts s ⟨uid, incl, pg, lim⟩).hasMore =
      decide ((pg.getD 1 - 1) * lim.getD 10 +
        (PostService.getAllPosts s ⟨uid, incl, pg, lim⟩).posts.length <
        (PostService.getAllPosts s ⟨uid, incl, pg, lim⟩).total) := by
  refine ⟨rfl, rfl, ?_, ?_, ?_, rfl⟩
  · show (((List.insertionSort postDescOrder
        (s.posts.filter (postWhere uid (incl.getD false)))).drop
        ((pg.getD 1 - 1) * lim.getD 10)).take (lim.getD 10)).length = _
    rw [List.length_take, List.length_drop,
      (List.perm_insertionSort postDescOrder _).length_eq]
  · show List.Sorted postDescOrder
      (((List.insertionSort postDescOrder
          (s.posts.filter (postWhere uid (incl.getD false)))).drop
          ((pg.getD 1 - 1) * lim.getD 10)).take (lim.getD 10))
    have hsub : (((List.insertionSort postDescOrder
        (s.posts.filter (postWhere uid (incl.getD false)))).drop
        ((pg.getD 1 - 1) * lim.getD 10)).take (lim.getD 10)).Sublist
        (List.insertionSort postDescOrder
          (s.posts.filter (postWhere uid (incl.getD false)))) :=
      (List.take_sublist _ _).trans (List.drop_sublist _ _)
    exact (List.sorted_insertionSort postDescOrder _).sublist hsub
  · intro p hp
    have hsub : (((List.insertionSort postDescOrder
        (s.posts.filter (postWhere uid (incl.getD false)))).drop
        ((pg.getD 1 - 1) * lim.getD 10)).take (lim.getD 10)).Sublist
        (List.insertionSort postDescOrder
          (s.posts.filter (postWhere uid (incl.getD false)))) :=
      (List.take_sublist _ _).trans (List.drop_sublist _ _)
    have hmem : p ∈ List.insertionSort postDescOrder
        (s.posts.filter (postWhere uid (incl.getD false))) := hsub.mem hp
    have hmem2 : p ∈ s.posts.filter (postWhere uid (incl.getD false)) :=
      ((List.perm_insertionSort postDescOrder _).mem_iff).mp hmem
    exact (List.mem_filter.mp hmem2).2

/-- Witness for C6: the spec's fifteen-post scenario — page 1 of limit 10
returns 10 posts with `hasMore = true`, page 2 returns the remaining 5 with
`hasMore = false`. -/
theorem C6_getAllPosts_pagination_witness :
    1 ≤ ((some 1 : Option Nat)).getD 1 ∧
    (PostService.getAllPosts fifteenStore ⟨none, none, some 1, some 10⟩).posts.length = 10 ∧
    (PostService.getAllPosts fifteenStore ⟨none, none, some 1, some 10⟩).hasMore = true ∧
    (PostService.getAllPosts fifteenStore ⟨none, none, some 2, some 10⟩).posts.length = 5 ∧
    (PostService.getAllPosts fifteenStore ⟨none, none, some 2, some 10⟩).hasMore = false ∧
    (PostService.getAllPosts fifteenStore ⟨none, none, some 1, some 10⟩).total = 15 ∧
    List.Sorted postDescOrder
      (PostService.getAllPosts fifteenStore ⟨none, none, some 1, some 10⟩).posts :=
  ⟨by decide, by decide, by decide, by decide, by decide, by decide,
   (C6_getAllPosts_pagination fifteenStore none none (some 1) (some 10)
      (by decide)).2.2.2.1⟩

/-- C7 counterexample: `GET /posts?page=abc` — `parseInt("abc")` is `NaN`,
`NaN < 1` is false, so the bounds check does not fire; the request reaches
the service call and ends in the 500 path, not the HTTP 400 the claim
states for values that do not parse to a number. -/
theorem C7_counterexample :
    postsRouteGET sampleStore none (some "abc") none = .serverError ∧
    (postsRouteGET sampleStore none (some "abc") none).status = 500 := by
  exact ⟨by decide, by decide⟩

/-- C7 (amended): a `page` or `limit` query parameter that parses to a
number violating `page ≥ 1` or `1 ≤ limit ≤ 100` yields HTTP 400; with both
parameters parsing to in-bounds numbers (or absent, giving the defaults) the
endpoint answers 200 with `{posts, total, hasMore, page, limit}` from the
service; but a parameter that does not parse to a number gives `NaN`, every
bounds comparison with `NaN` is false, so the request slips past the checks
into the service call and ends as 500, not 400. -/
theorem C7_route_pagination_bounds (s : Store) (uP pP lP : Option String) :
    (∀ n : Int, routePageNum pP = .num n → n < 1 →
        postsRouteGET s uP pP lP = .badPage ∧
        (postsRouteGET s uP pP lP).status = 400) ∧
    (∀ m : Int, (routePageNum pP).lt 1 = false → routeLimitNum lP = .num m →
        (m < 1 ∨ 100 < m) →
        postsRouteGET s uP pP lP = .badLimit ∧
        (postsRouteGET s uP pP lP).status = 400) ∧
    (∀ p l : Int, routePageNum pP = .num p → 1 ≤ p → routeLimitNum lP = .num l →
        1 ≤ l → l ≤ 100 →
        postsRouteGET s uP pP lP =
          .ok (PostService.getAllPosts s
              ⟨routeUserId uP, none, some p.toNat, some l.toNat⟩).posts
            (PostService.getAllPosts s
              ⟨routeUserId uP, none, some p.toNat, some l.toNat⟩).total
            (PostService.getAllPosts s
              ⟨routeUserId uP, none, some p.toNat, some l.toNat⟩).hasMore p l ∧
        (postsRouteGET s uP pP lP).status = 200) ∧
    (routePageNum pP = .nan → (routeLimitNum lP).lt 1 = false →
        (routeLimitNum lP).gt 100 = false →
        postsRouteGET s uP pP lP = .serverError ∧
        (postsRouteGET s uP pP lP).status = 500) ∧
    (∀ p : Int, routePageNum pP = .num p → 1 ≤ p → routeLimitNum lP = .nan →
        postsRouteGET s uP pP lP = .serverError ∧
        (postsRouteGET s uP pP lP).status = 500) := by
  refine ⟨?_, ?_, ?_, ?_, ?_⟩
  · intro n hn hlt
    have h : postsRouteGET s uP pP lP = .badPage := by
      simp [postsRouteGET, hn, JSNum.lt, hlt]
    exact ⟨h, by rw [h]; rfl⟩
  · intro m hpok hm hbad
    have h : postsRouteGET s uP pP lP = .badLimit := by
      simp only [postsRouteGET]
      rw [hpok, hm]
      rcases hbad with hb | hb
      · simp [JSNum.lt, JSNum.gt, hb]
      · simp [JSNum.lt, JSNum.gt, hb, Int.not_lt.mpr (le_of_lt hb)]
    exact ⟨h, by rw [h]; rfl⟩
  · intro p l hp hp1 hl hl1 hl100
    have h : postsRouteGET s uP pP lP =
        .ok (PostService.getAllPosts s
            ⟨routeUserId uP, none, some p.toNat, some l.toNat⟩).posts
          (PostService.getAllPosts s
            ⟨routeUserId uP, none, some p.toNat, some l.toNat⟩).total
          (PostService.getAllPosts s
            ⟨routeUserId uP, none, some p.toNat, some l.toNat⟩).hasMore p l := by
      simp only [postsRouteGET]
      rw [hp, hl]
      simp [JSNum.lt, JSNum.gt, Int.not_lt.mpr hp1, Int.not_lt.mpr hl1, Int.not_lt.mpr hl100]
    exact ⟨h, by rw [h]; rfl⟩
  · intro hp hl1 hl100
    have h : postsRouteGET s uP pP lP = .serverError := by
      simp only [postsRouteGET]
      rw [hp, hl1, hl100]
      simp [JSNum.lt]
    exact ⟨h, by rw [h]; rfl⟩
  · intro p hp hp1 hl
    have h : postsRouteGET s uP pP lP = .serverError := by
      simp only [postsRouteGET]
      rw [hp, hl]
      simp [JSNum.lt, JSNum.gt, Int.not_lt.mpr hp1]
    exact ⟨h, by rw [h]; rfl⟩

/-- Witness for C7 at concrete query strings: `page=0` → 400, `limit=200` →
400, `page=2&limit=5` → 200 with the service page, `limit=abc` → 500. -/
theorem C7_route_pagination_bounds_witness :
    (routePageNum (some "0") = .num 0 ∧
      postsRouteGET sampleStore none (some "0") none = .badPage) ∧
    (routeLimitNum (some "200") = .num 200 ∧
      postsRouteGET sampleStore none none (some "200") = .badLimit) ∧
    (postsRouteGET sampleStore none (some "2") (some "5") =
      .ok (PostService.getAllPosts sampleStore ⟨none, none, some 2, some 5⟩).posts
        (PostService.getAllPosts sampleStore ⟨none, none, some 2, some 5⟩).total
        (PostService.getAllPosts sampleStore ⟨none, none, some 2, some 5⟩).hasMore 2 5) ∧
    postsRouteGET sampleStore none (some "2") (some "abc") = .serverError :=
  ⟨⟨by decide, ((C7_route_pagination_bounds sampleStore none (some "0") none).1 0
      (by decide) (by decide)).1⟩,
   ⟨by decide, ((C7_route_pagination_bounds sampleStore none none (some "200")).2.1 200
      (by decide) (by decide) (Or.inr (by decide))).1⟩,
   (((C7_route_pagination_bounds sampleStore none (some "2") (some "5")).2.2.1 2 5
      (by decide) (by decide) (by decide) (by decide) (by decide)).1).trans (by decide),
   ((C7_route_pagination_bounds sampleStore none (some "2") (some "abc")).2.2.2.2 2
      (by decide) (by decide) (by decide)).1⟩

end Blog
